import Mathlib

/-!
Verification development for the dnsfik reconciliation core.

The TypeScript sources are embedded shallowly:
* `src/utils/validators.ts`   -> label parsing (`LabelValidator`)
* `src/services/dns.service.ts` -> reconciler (`DNSService`)
* `src/services/ip.service.ts`  -> public-address resolver (`IPService`)
* the task queue (`src/workers/task.worker.ts`, not shipped under `src/`)
  is modelled from the specification.

JavaScript maps/objects are embedded as insertion-ordered association
lists; `undefined` becomes `Option.none`; JS numbers that matter here are
integers and are embedded as `Int` (NaN folds into `none` at the points
where the source only ever tests `isNaN`).  String primitives are
re-implemented structurally over `List Char` so that every definition
reduces in the kernel.
-/

/-! ## String helpers (structural re-implementations of JS string ops) -/

/-- JS `key.startsWith(p)`. -/
def strStartsWith (s p : String) : Bool :=
  p.data.isPrefixOf s.data

/-- JS `key.endsWith(p)`. -/
def strEndsWith (s p : String) : Bool :=
  p.data.isSuffixOf s.data

/-- Drop the first `n` characters, as in `key.replace(pfx, "")` for a key
that starts with the prefix `pfx` of length `n`. -/
def strDrop (s : String) (n : Nat) : String :=
  String.mk (s.data.drop n)

/-- JS `s.toUpperCase()` (ASCII, which is all the source feeds it). -/
def strToUpper (s : String) : String :=
  String.mk (s.data.map Char.toUpper)

/-- Split a character list at every `.` (JS `path.split(".")`). -/
def splitChList : List Char → List (List Char)
  | [] => [[]]
  | c :: rest =>
    if c = '.' then [] :: splitChList rest
    else
      match splitChList rest with
      | h :: t => (c :: h) :: t
      | [] => [[c]]

/-- JS `path.split(".")`. -/
def splitDots (s : String) : List String :=
  (splitChList s.data).map String.mk

/-- JS `path.includes(".")`. -/
def containsDot (s : String) : Bool :=
  s.data.any (fun c => c = '.')

/-- JS `parseInt(s, 10)`, with `NaN` embedded as `none`. -/
def parseIntJS (s : String) : Option Int :=
  let cs := s.data.dropWhile (fun c => c = ' ' ∨ c = '\t' ∨ c = '\n' ∨ c = '\r')
  let signed : Bool × List Char :=
    match cs with
    | '-' :: r => (true, r)
    | '+' :: r => (false, r)
    | _ => (false, cs)
  let ds := signed.2.takeWhile Char.isDigit
  if ds.isEmpty then none
  else
    let n : Nat := ds.foldl (fun a c => a * 10 + (c.toNat - 48)) 0
    some (if signed.1 then -(n : Int) else (n : Int))

/-! ## Association-list embedding of JS objects / Maps (insertion order) -/

/-- Read `m[k]`; `none` is JS `undefined`. -/
def lookupKV (m : List (String × String)) (k : String) : Option String :=
  (m.find? (fun p => p.1 == k)).map (fun p => p.2)

/-- Write `m[k] = v`: overwrite in place if the key exists, else append
(matching JS object/Map insertion-order semantics). -/
def setKV (m : List (String × String)) (k v : String) : List (String × String) :=
  if m.any (fun p => p.1 == k) then
    m.map (fun p => if p.1 == k then (k, v) else p)
  else m ++ [(k, v)]

/-- JS falsy test on a possibly-absent string (`!x`). -/
def strFalsy : Option String → Bool
  | none => true
  | some s => s == ""

/-! ## Data model (`DNSLabel` from validators.ts, config from config.ts) -/

/-- `DNSLabel` interface of `src/utils/validators.ts`; at runtime the
`hostname` slot may itself be `undefined` before validation, hence
`Option String`. -/
structure DNSLabel where
  hostname : Option String
  type : Option String
  content : Option String
  ttl : Option Int
  proxied : Option Bool
deriving Repr, DecidableEq

/-- Provider-default record settings (`config.app.defaults`). -/
structure AppDefaults where
  recordType : String
  proxied : Bool
  ttl : Int
deriving Repr, DecidableEq

/-- The slice of `config.app` the validator and reconciler read. -/
structure AppConfig where
  useTraefikLabels : Bool
  defaults : AppDefaults
deriving Repr, DecidableEq

/-- `LabelValidator.VALID_RECORD_TYPES`. -/
def VALID_RECORD_TYPES : List String := ["A", "AAAA", "CNAME", "TXT", "MX"]

/-- `LabelValidator.DNS_LABEL_PREFIX` (length 15). -/
def dnsLabelPfx : String := "dns.cloudflare."

/-! ### The IPv6 literal regex of `LabelValidator.isValidIPv6`

The source tests
`/^(?:h{1,4}:){7}h{1,4}|(?:h{1,4}:)*:h{1,4}|:(?::h{1,4})*$/`
(`h` = hex digit) with `RegExp.test`, i.e. the pattern matches somewhere
in the string; `^` anchors only the first alternative and `$` only the
last.  We embed each alternative as a nondeterministic matcher returning
every possible remainder. -/

def isHexDigit (c : Char) : Bool :=
  c.isDigit || ('a' ≤ c ∧ c ≤ 'f') || ('A' ≤ c ∧ c ≤ 'F')

/-- Remainders after consuming between 1 and `k` hex digits. -/
def hexChunkRems : Nat → List Char → List (List Char)
  | 0, _ => []
  | _ + 1, [] => []
  | k + 1, c :: rest =>
    if isHexDigit c then rest :: hexChunkRems k rest else []

/-- Remainder after consuming a literal colon. -/
def colonRem : List Char → List (List Char)
  | ':' :: rest => [rest]
  | _ => []

/-- Sequence two nondeterministic matchers. -/
def seqRems (rs : List (List Char)) (f : List Char → List (List Char)) :
    List (List Char) :=
  (rs.map f).flatten

/-- Exactly `n` repetitions of `f`. -/
def repRems : Nat → (List Char → List (List Char)) → List Char → List (List Char)
  | 0, _, cs => [cs]
  | n + 1, f, cs => seqRems (f cs) (repRems n f)

/-- Zero or more repetitions of `f` (bounded by `fuel`; every matcher we
star consumes at least one character, so `fuel = length` is exhaustive). -/
def starRems : Nat → (List Char → List (List Char)) → List Char → List (List Char)
  | 0, _, cs => [cs]
  | n + 1, f, cs => cs :: seqRems (f cs) (starRems n f)

/-- `h{1,4}:` group. -/
def grpRems (cs : List Char) : List (List Char) :=
  seqRems (hexChunkRems 4 cs) colonRem

/-- First alternative, anchored at the start: `^(?:h{1,4}:){7}h{1,4}`. -/
def matchFullIPv6Start (cs : List Char) : Bool :=
  !(seqRems (repRems 7 grpRems cs) (hexChunkRems 4)).isEmpty

/-- Second alternative at one position: `(?:h{1,4}:)*:h{1,4}`. -/
def matchP2At (cs : List Char) : Bool :=
  !(seqRems (seqRems (starRems cs.length grpRems cs) colonRem)
      (hexChunkRems 4)).isEmpty

/-- Third alternative at one position, anchored at the end: `:(?::h{1,4})*$`. -/
def matchP3At (cs : List Char) : Bool :=
  (seqRems (colonRem cs)
      (starRems cs.length (fun l => seqRems (colonRem l) (hexChunkRems 4)))).any
    List.isEmpty

/-- `LabelValidator.isValidIPv6`. -/
def isValidIPv6 (s : String) : Bool :=
  matchFullIPv6Start s.data
    || s.data.tails.any matchP2At
    || s.data.tails.any matchP3At

/-! ## `LabelValidator.validateRecordType` and `validateDNSLabel` -/

/-- `LabelValidator.validateRecordType`. -/
def validateRecordType (type? : Option String) : String :=
  match type? with
  | none => "A"
  | some t =>
    if t == "" then "A"
    else
      let upperType := strToUpper t
      if VALID_RECORD_TYPES.contains upperType then upperType else "A"

/-- `LabelValidator.validateDNSLabel`: normalizes one raw label, returning
`none` where the source returns `null` (record dropped).  The trailing
`Object.fromEntries` filter of the source is the identity here because
absent fields are already `none`. -/
def validateDNSLabel (cfg : AppConfig) (label : DNSLabel)
    (includeDefaults : Bool) : Option DNSLabel :=
  if strFalsy label.hostname then none
  else
    let ty := validateRecordType label.type
    let proxied : Option Bool :=
      match label.proxied with
      | some b => some b
      | none =>
        if ty == "A" then some true
        else if ty == "AAAA" then some false
        else if includeDefaults then some cfg.defaults.proxied
        else none
    let contentOk : Bool :=
      match label.content with
      | some _ => true
      | none => !(ty == "CNAME")
    if !contentOk then none
    else
      let content := label.content
      let ttl : Option Int :=
        match label.ttl with
        | some t =>
          if 0 < t then some t
          else if includeDefaults then some cfg.defaults.ttl else none
        | none => if includeDefaults then some cfg.defaults.ttl else none
      let badV6 : Bool :=
        ty == "AAAA" &&
          (match content with
           | some c => c != "" && c != "public_ip" && !isValidIPv6 c
           | none => false)
      if badV6 then none
      else some { hostname := label.hostname, type := some ty,
                  content := content, ttl := ttl, proxied := proxied }

/-! ## `LabelValidator.extractDNSLabels` -/

/-- Recognized leaf property names (the disambiguation list in
`extractDNSLabels`). -/
def isPropertyName (s : String) : Bool :=
  s == "hostname" || s == "type" || s == "content" || s == "proxied" || s == "ttl"

/-- First pass of `extractDNSLabels`: keys under the prefix with no
further dot define shared default values. -/
def dnsDefaultValues (labels : List (String × String)) : List (String × String) :=
  labels.foldl
    (fun d kv =>
      if strStartsWith kv.1 dnsLabelPfx then
        let labelPath := strDrop kv.1 dnsLabelPfx.length
        if !containsDot labelPath then setKV d labelPath kv.2 else d
      else d)
    []

/-- Group/property disambiguation for one stripped key path. -/
def groupAndProperty (labelPath : String) : String × String :=
  match splitDots labelPath with
  | [] => ("default", "")
  | [p] => ("default", p)
  | p0 :: p1 :: _ =>
    if isPropertyName p0 then (p1, p0) else (p0, p1)

/-- Write into a named group (`groups.get(group)![property] = value`,
creating the group if needed, preserving insertion order). -/
def setGroupKV (gs : List (String × List (String × String)))
    (g k v : String) : List (String × List (String × String)) :=
  if gs.any (fun p => p.1 == g) then
    gs.map (fun p => if p.1 == g then (p.1, setKV p.2 k v) else p)
  else gs ++ [(g, [(k, v)])]

/-- Second pass of `extractDNSLabels`: group the labels. -/
def dnsGroups (labels : List (String × String)) :
    List (String × List (String × String)) :=
  labels.foldl
    (fun gs kv =>
      if strStartsWith kv.1 dnsLabelPfx then
        let gp := groupAndProperty (strDrop kv.1 dnsLabelPfx.length)
        setGroupKV gs gp.1 gp.2 kv.2
      else gs)
    []

/-- Third pass: merge the shared defaults under each group (group wins:
a default is copied only where the group has no value). -/
def applyDefaults (g : List (String × String))
    (d : List (String × String)) : List (String × String) :=
  d.foldl
    (fun g kv => if (lookupKV g kv.1).isNone then setKV g kv.1 kv.2 else g)
    g

/-- The per-group `DNSLabel` literal built in the final `.map` of
`extractDNSLabels` (type uppercased, proxied only when present,
`parseInt` on the ttl). -/
def mkGroupLabel (g : List (String × String)) : DNSLabel :=
  { hostname := lookupKV g "hostname"
    type := (lookupKV g "type").map strToUpper
    content := lookupKV g "content"
    proxied := (lookupKV g "proxied").map (fun s => s == "true")
    ttl := (lookupKV g "ttl").bind parseIntJS }

/-- The `includeDefaults` flag computed per group: records of type A,
records with no type (which become A), and AAAA/CNAME records. -/
def includeDefaultsFor (label : DNSLabel) : Bool :=
  label.type == some "A" || label.type == none
    || label.type == some "AAAA" || label.type == some "CNAME"

/-! ### Traefik routing-rule extraction -/

/-- Try to match `Host(` ++ `backtick cap backtick` ++ `)` at this exact
position; the capture is the maximal run of non-backtick characters and
must be non-empty.  Returns the capture and the remainder after the
match (used by the `g`-flag scan to continue non-overlapping). -/
def hostMatchAt (cs : List Char) : Option (String × List Char) :=
  if ("Host(`".data).isPrefixOf cs then
    let rest := cs.drop 6
    let cap := rest.takeWhile (fun c => c ≠ '`')
    let rest2 := rest.drop cap.length
    if cap.isEmpty then none
    else
      match rest2 with
      | '`' :: ')' :: r => some (String.mk cap, r)
      | _ => none
  else none

/-- Scan left to right for the first position where the Host pattern
matches (JS `String.match` with a non-global regex). -/
def findHost : List Char → Option (String × List Char)
  | [] => none
  | c :: rest =>
    match hostMatchAt (c :: rest) with
    | some r => some r
    | none => findHost rest

/-- All non-overlapping Host captures, left to right (JS `match` with the
`g` flag followed by re-matching each hit for its capture group). -/
def allHostsAux : Nat → List Char → List String
  | 0, _ => []
  | n + 1, cs =>
    match findHost cs with
    | none => []
    | some (cap, rem) => cap :: allHostsAux n rem

/-- Captures of `rule.match(/Host\(`...`\)/g)` with their groups. -/
def allHostMatches (rule : String) : List String :=
  allHostsAux rule.data.length rule.data

/-- `LabelValidator.extractHostnameFromTraefikRule`. -/
def extractHostnameFromTraefikRule (labels : List (String × String)) :
    Option String :=
  let rules :=
    (labels.filter
        (fun kv =>
          strStartsWith kv.1 "traefik.http.routers." && strEndsWith kv.1 ".rule"))
      |>.map (fun kv => kv.2)
  rules.findSome? (fun r => (findHost r.data).map (fun p => p.1))

/-- The label literal built for one Traefik hostname: provider defaults,
then explicit `dns.cloudflare.*` override keys (truthiness checks as in
the source: `type`/`content` overrides only on truthy values, `proxied`
on any defined value). -/
def buildTraefikLabel (cfg : AppConfig) (labels : List (String × String))
    (hostname : String) : DNSLabel :=
  let base : DNSLabel :=
    { hostname := some hostname, type := some cfg.defaults.recordType,
      content := none, proxied := some cfg.defaults.proxied,
      ttl := some cfg.defaults.ttl }
  let withType :=
    match lookupKV labels "dns.cloudflare.type" with
    | some s => if s == "" then base else { base with type := some s }
    | none => base
  let withContent :=
    match lookupKV labels "dns.cloudflare.content" with
    | some s => if s == "" then withType else { withType with content := some s }
    | none => withType
  match lookupKV labels "dns.cloudflare.proxied" with
  | some s => { withContent with proxied := some (s == "true") }
  | none => withContent

/-- Inner loop of `extractTraefikLabels` over the Host captures of one
rule, threading the `processedHosts` dedup set. -/
def traefikHostLoop (cfg : AppConfig) (labels : List (String × String)) :
    List String → List String → List DNSLabel × List String
  | [], processed => ([], processed)
  | h :: rest, processed =>
    if processed.contains h then traefikHostLoop cfg labels rest processed
    else
      let valid := validateDNSLabel cfg (buildTraefikLabel cfg labels h) true
      let r := traefikHostLoop cfg labels rest (processed ++ [h])
      (valid.toList ++ r.1, r.2)

/-- Outer loop of `extractTraefikLabels` over the router rules. -/
def traefikRuleLoop (cfg : AppConfig) (labels : List (String × String)) :
    List String → List String → List DNSLabel
  | [], _ => []
  | rule :: rest, processed =>
    let r := traefikHostLoop cfg labels (allHostMatches rule) processed
    r.1 ++ traefikRuleLoop cfg labels rest r.2

/-- `LabelValidator.extractTraefikLabels`. -/
def extractTraefikLabels (cfg : AppConfig)
    (labels : List (String × String)) : List DNSLabel :=
  if lookupKV labels "traefik.enable" != some "true" then []
  else
    let hostRules :=
      (labels.filter
          (fun kv =>
            strStartsWith kv.1 "traefik.http.routers."
              && strEndsWith kv.1 ".rule"))
        |>.map (fun kv => kv.2)
    traefikRuleLoop cfg labels hostRules []

/-- The leading fallback step of `extractDNSLabels`: copy a Traefik-rule
hostname into `dns.cloudflare.hostname` when that key is falsy and
inference is enabled. -/
def preTraefikHostname (cfg : AppConfig)
    (labels : List (String × String)) : List (String × String) :=
  if strFalsy (lookupKV labels "dns.cloudflare.hostname")
      && cfg.useTraefikLabels then
    match extractHostnameFromTraefikRule labels with
    | some h =>
      if h == "" then labels else setKV labels "dns.cloudflare.hostname" h
    | none => labels
  else labels

/-- `LabelValidator.extractDNSLabels` (the validator is called per group
with the group-dependent `includeDefaults` flag; `null` results are
filtered out). -/
def extractDNSLabels (cfg : AppConfig)
    (labels : List (String × String)) : List DNSLabel :=
  let labels1 := preTraefikHostname cfg labels
  let groups :=
    (dnsGroups labels1).map
      (fun p => (p.1, applyDefaults p.2 (dnsDefaultValues labels1)))
  groups.filterMap
    (fun p =>
      let label := mkGroupLabel p.2
      validateDNSLabel cfg label (includeDefaultsFor label))

/-- `LabelValidator.validateServiceLabels` (the `serviceName` argument of
the source is used only for logging and is dropped here). -/
def validateServiceLabels (cfg : AppConfig)
    (labels : List (String × String)) : List DNSLabel :=
  if cfg.useTraefikLabels && lookupKV labels "traefik.enable" == some "true" then
    let traefikLabels := extractTraefikLabels cfg labels
    if !traefikLabels.isEmpty then traefikLabels
    else extractDNSLabels cfg labels
  else extractDNSLabels cfg labels

/-! ## Reconciler (`src/services/dns.service.ts`)

`cloudflare.service.ts` is a thin CRUD wrapper outside the core; the
provider read `getDNSRecord(name, type)` is abstracted as a function
argument `getRecord`, and `ipService.getPublicIP` as `resolve`. -/

/-- The `DNSRecord` interface of `cloudflare.service.ts` as used by
`dns.service.ts`: `id`, `ttl` and `proxied` are optional on the wire. -/
structure DNSRecord where
  id : Option String := none
  type : String
  name : String
  content : String
  ttl : Option Int := none
  proxied : Option Bool := none
deriving Repr, DecidableEq

/-- `TaskType` of `src/models/task.model.ts` (declaration visible through
its importers). -/
inductive TaskType where
  | CREATE
  | UPDATE
deriving Repr, DecidableEq

/-- `TaskStatus` lifecycle states (spec section 3). -/
inductive TaskStatus where
  | PENDING
  | IN_PROGRESS
  | COMPLETED
  | FAILED
deriving Repr, DecidableEq

/-- Payload of a `DNSTask` as built in `createOrUpdateDNSRecord`. -/
structure TaskData where
  serviceName : String
  recordType : String
  name : String
  content : String
  ttl : Option Int
  proxied : Option Bool
  recordId : Option String := none
deriving Repr, DecidableEq

/-- `DNSTask` (the `uuid` field is opaque and carries no logic; it is
omitted from the embedding). -/
structure DNSTask where
  type : TaskType
  status : TaskStatus
  attempts : Nat
  maxAttempts : Nat
  data : TaskData
deriving Repr, DecidableEq

/-- `DNSUpdateOptions` of `dns.service.ts`. -/
structure DNSUpdateOptions where
  serviceName : String
  recordType : Option String
  name : String
  content : Option String
  ttl : Option Int
  proxied : Option Bool
deriving Repr, DecidableEq

/-- JS `options.ttl || 1` (undefined/NaN and 0 are falsy). -/
def ttlOrOne : Option Int → Int
  | none => 1
  | some t => if t = 0 then 1 else t

/-- JS `typeof options.proxied === "boolean" ? options.proxied : true`. -/
def proxiedOrTrue : Option Bool → Bool
  | none => true
  | some b => b

/-- The `record` literal built at the top of `createOrUpdateDNSRecord`
(`options.content!` is a non-null assertion; by that point the reconciler
has always resolved content, and an absent value is embedded as `""`). -/
def buildRecord (options : DNSUpdateOptions) : DNSRecord :=
  { id := none
    type := options.recordType.getD "A"
    name := options.name
    content := options.content.getD ""
    ttl := some (ttlOrOne options.ttl)
    proxied := some (proxiedOrTrue options.proxied) }

/-- `DNSService.createOrUpdateDNSRecord` as a pure diff: it reads the
observed record via `getRecord` and returns the task it enqueues, or
`none` for the explicit no-op branch. -/
def createOrUpdateDNSRecord
    (getRecord : String → String → Option DNSRecord)
    (options : DNSUpdateOptions) : Option DNSTask :=
  let record := buildRecord options
  let base : TaskData :=
    { serviceName := options.serviceName, recordType := record.type,
      name := record.name, content := record.content,
      ttl := record.ttl, proxied := record.proxied }
  match getRecord options.name record.type with
  | some existingRecord =>
    let needsUpdate :=
      existingRecord.content != record.content
        || existingRecord.ttl != record.ttl
        || existingRecord.proxied != record.proxied
    if !needsUpdate then none
    else
      some { type := TaskType.UPDATE, status := TaskStatus.PENDING,
             attempts := 0, maxAttempts := 3,
             data := { base with recordId := existingRecord.id } }
  | none =>
    some { type := TaskType.CREATE, status := TaskStatus.PENDING,
           attempts := 0, maxAttempts := 3, data := base }

/-- The `dnsOptions` literal built per label in `handleServiceUpdate`. -/
def mkDnsOptions (serviceName : String) (label : DNSLabel) : DNSUpdateOptions :=
  { serviceName := serviceName
    name := label.hostname.getD ""
    recordType := label.type
    content := label.content
    ttl := label.ttl
    proxied := label.proxied }

/-- JS `!dnsOptions.content || dnsOptions.content === "public_ip"`. -/
def contentSentinel : Option String → Bool
  | none => true
  | some c => c == "" || c == "public_ip"

/-- One iteration of the `handleServiceUpdate` loop up to and including
content resolution: `Except.error` propagates the thrown resolver error,
`.ok none` is the `continue` for an unresolvable AAAA record, `.ok (some
opts)` proceeds to the diff. -/
def stepLabel {E : Type} (resolve : String → Except E String)
    (serviceName : String) (label : DNSLabel) :
    Except E (Option DNSUpdateOptions) :=
  let dnsOptions := mkDnsOptions serviceName label
  if contentSentinel dnsOptions.content then
    let recordType := dnsOptions.recordType.getD "A"
    match resolve recordType with
    | Except.ok ip => Except.ok (some { dnsOptions with content := some ip })
    | Except.error e =>
      if recordType == "AAAA" then Except.ok none else Except.error e
  else Except.ok (some dnsOptions)

/-- The `for (const label of dnsLabels)` loop of `handleServiceUpdate`,
collecting the tasks enqueued in order. -/
def processLabels {E : Type} (resolve : String → Except E String)
    (getRecord : String → String → Option DNSRecord)
    (serviceName : String) : List DNSLabel → Except E (List DNSTask)
  | [] => Except.ok []
  | label :: rest =>
    match stepLabel resolve serviceName label with
    | Except.error e => Except.error e
    | Except.ok none => processLabels resolve getRecord serviceName rest
    | Except.ok (some dnsOptions) =>
      match processLabels resolve getRecord serviceName rest with
      | Except.error e => Except.error e
      | Except.ok tasks =>
        Except.ok ((createOrUpdateDNSRecord getRecord dnsOptions).toList ++ tasks)

/-- `DNSService.handleServiceUpdate`: the docker inspect step supplies the
full label map, embedded here as the `labels` argument. -/
def handleServiceUpdate {E : Type} (cfg : AppConfig) (serviceName : String)
    (labels : List (String × String)) (resolve : String → Except E String)
    (getRecord : String → String → Option DNSRecord) :
    Except E (List DNSTask) :=
  processLabels resolve getRecord serviceName (validateServiceLabels cfg labels)

/-! ## Public-address resolver (`src/services/ip.service.ts`)

The network fetches are abstracted as `Except` results handed in as
arguments; the cache fields and `Date.now()` are explicit state. -/

/-- Error values of one resolution attempt; `disagree` stands for the
thrown `new Error("IP addresses from different sources do not match")`
and `upstream` for any propagated fetch failure. -/
inductive IPFetchError where
  | disagree
  | upstream (msg : String)
deriving Repr, DecidableEq

/-- Cache state of `IPService` (`currentIPv4/6`, `lastCheckIPv4/6`). -/
structure IPCache where
  currentIPv4 : Option String
  currentIPv6 : Option String
  lastCheckIPv4 : Int
  lastCheckIPv6 : Int
deriving Repr, DecidableEq

/-- `CACHE_DURATION = 5 * 60 * 1000`. -/
def CACHE_DURATION : Int := 5 * 60 * 1000

/-- JS truthiness of the cached value combined with the freshness test
(`this.currentIPv4 && Date.now() - this.lastCheckIPv4 < CACHE_DURATION`). -/
def freshV4 (st : IPCache) (now : Int) : Bool :=
  match st.currentIPv4 with
  | some ip => ip != "" && now - st.lastCheckIPv4 < CACHE_DURATION
  | none => false

/-- Freshness test for the v6 cache. -/
def freshV6 (st : IPCache) (now : Int) : Bool :=
  match st.currentIPv6 with
  | some ip => ip != "" && now - st.lastCheckIPv6 < CACHE_DURATION
  | none => false

/-- The try-block of `getPublicIPv4`: primary trace endpoint first; on its
failure the two fallback providers are queried together (a rejection of
either rejects the pair) and their answers must agree. -/
def attemptV4 (primary fb1 fb2 : Except String String) :
    Except IPFetchError String :=
  match primary with
  | Except.ok ip => Except.ok ip
  | Except.error _ =>
    match fb1, fb2 with
    | Except.error e, _ => Except.error (IPFetchError.upstream e)
    | _, Except.error e => Except.error (IPFetchError.upstream e)
    | Except.ok ip1, Except.ok ip2 =>
      if ip1 != ip2 then Except.error IPFetchError.disagree
      else Except.ok ip1

/-- `IPService.getPublicIPv4` over one call: given the cache, the clock
and the outcomes of the (up to three) fetches, returns the result and
the new cache. -/
def getPublicIPv4 (st : IPCache) (now : Int)
    (primary fb1 fb2 : Except String String) :
    Except IPFetchError String × IPCache :=
  if freshV4 st now then
    (Except.ok ((st.currentIPv4).getD ""), st)
  else
    match attemptV4 primary fb1 fb2 with
    | Except.ok ip =>
      (Except.ok ip, { st with currentIPv4 := some ip, lastCheckIPv4 := now })
    | Except.error e =>
      match st.currentIPv4 with
      | some c => if c != "" then (Except.ok c, st) else (Except.error e, st)
      | none => (Except.error e, st)

/-- `IPService.getPublicIPv6` over one call: single trusted endpoint, no
fallback sources. -/
def getPublicIPv6 (st : IPCache) (now : Int)
    (primary : Except String String) :
    Except IPFetchError String × IPCache :=
  if freshV6 st now then
    (Except.ok ((st.currentIPv6).getD ""), st)
  else
    match primary with
    | Except.ok ip =>
      (Except.ok ip, { st with currentIPv6 := some ip, lastCheckIPv6 := now })
    | Except.error e =>
      match st.currentIPv6 with
      | some c =>
        if c != "" then (Except.ok c, st)
        else (Except.error (IPFetchError.upstream e), st)
      | none => (Except.error (IPFetchError.upstream e), st)

/-! ## Reconciliation task queue

Modelled from the spec: `src/workers/task.worker.ts` is not under `src/`
(only its tests and callers are).  Spec sections 3 and 4.3: tasks are
processed strictly sequentially, FIFO; on provider success the task is
COMPLETED and removed; on failure attempts is incremented and the task is
requeued at the tail while `attempts < maxAttempts`, otherwise it is
marked FAILED, removed, and never retried; `enqueue` is fire-and-forget
(no failure is ever surfaced to its caller). -/

structure QueueState where
  queue : List DNSTask
  completed : List DNSTask
  failed : List DNSTask
deriving Repr, DecidableEq

/-- Modelled from the spec: `enqueue(task)` appends at the tail and
always reports success to its caller. -/
def enqueueTask (st : QueueState) (t : DNSTask) :
    QueueState × Except String Unit :=
  ({ st with queue := st.queue ++ [t] }, Except.ok ())

/-- Modelled from the spec: processing of the task at the head of the
queue against a provider call that succeeds or fails. -/
def processOne (provider : TaskData → Bool) (st : QueueState) : QueueState :=
  match st.queue with
  | [] => st
  | t :: rest =>
    if provider t.data then
      { st with queue := rest,
                completed := st.completed ++ [{ t with status := TaskStatus.COMPLETED }] }
    else
      let t2 := { t with attempts := t.attempts + 1 }
      if t2.attempts < t2.maxAttempts then
        { st with queue := rest ++ [{ t2 with status := TaskStatus.PENDING }] }
      else
        { st with queue := rest,
                  failed := st.failed ++ [{ t2 with status := TaskStatus.FAILED }] }

/-- Modelled from the spec: `n` sequential processing steps of the queue
worker. -/
def runQueue : Nat → (TaskData → Bool) → QueueState → QueueState
  | 0, _, st => st
  | n + 1, provider, st => runQueue n provider (processOne provider st)

/-! ## Shared concrete fixtures -/

/-- Test configuration mirroring the integration tests: defaults
`{recordType: "A", proxied: true, ttl: 1}`, Traefik inference off. -/
def cfgEx : AppConfig :=
  { useTraefikLabels := false
    defaults := { recordType := "A", proxied := true, ttl := 1 } }

/-- Resolver that succeeds for IPv4 and fails for IPv6 (the scenario of
the spec and of the test `should skip AAAA record if IPv6 fetch fails`). -/
def resolveScen : String → Except String String :=
  fun t => if t == "AAAA" then Except.error "no ipv6" else Except.ok "1.2.3.4"

/-- Metadata declaring an A record and an AAAA record, both with no
content (sentinel). -/
def scenarioLabels : List (String × String) :=
  [("dns.cloudflare.hostname", "api.domain.com"),
   ("dns.cloudflare.type", "A"),
   ("dns.cloudflare.hostname.v6", "api.domain.com"),
   ("dns.cloudflare.type.v6", "AAAA")]

/-! ## Claim C1 -/

/-- Claim C1: for every desired record processed by the reconciler, an
absent observed record yields a CREATE task; a present one is compared on
content/ttl/proxied, yielding an UPDATE task carrying the existing id
when any differ and no task when all match; consequently a pass in which
every resolved record matches its observed record produces zero tasks. -/
theorem reconciler_diff_create_update_noop :
    (∀ (getRecord : String → String → Option DNSRecord)
       (options : DNSUpdateOptions),
      (getRecord options.name (buildRecord options).type = none →
        ∃ t, createOrUpdateDNSRecord getRecord options = some t ∧
          t.type = TaskType.CREATE) ∧
      (∀ ex, getRecord options.name (buildRecord options).type = some ex →
        ((ex.content = (buildRecord options).content ∧
          ex.ttl = (buildRecord options).ttl ∧
          ex.proxied = (buildRecord options).proxied) →
            createOrUpdateDNSRecord getRecord options = none) ∧
        ((ex.content ≠ (buildRecord options).content ∨
          ex.ttl ≠ (buildRecord options).ttl ∨
          ex.proxied ≠ (buildRecord options).proxied) →
            ∃ t, createOrUpdateDNSRecord getRecord options = some t ∧
              t.type = TaskType.UPDATE ∧ t.data.recordId = ex.id))) ∧
    (∀ (E : Type) (resolve : String → Except E String) getRecord serviceName
       (ls : List DNSLabel),
      (∀ l ∈ ls, ∃ opts, stepLabel resolve serviceName l = Except.ok (some opts) ∧
        createOrUpdateDNSRecord getRecord opts = none) →
      processLabels resolve getRecord serviceName ls = Except.ok []) := by
  constructor
  · intro getRecord options
    constructor
    · intro h
      simp only [createOrUpdateDNSRecord, h]
      exact ⟨_, rfl, rfl⟩
    · intro ex h
      constructor
      · rintro ⟨h1, h2, h3⟩
        simp only [createOrUpdateDNSRecord, h, h1, h2, h3, bne_self_eq_false,
          Bool.or_self, Bool.not_false, if_pos]
      · intro hdiff
        have hnd : (ex.content != (buildRecord options).content
            || ex.ttl != (buildRecord options).ttl
            || ex.proxied != (buildRecord options).proxied) = true := by
          rcases hdiff with h1 | h1 | h1 <;> simp [bne_iff_ne, h1]
        simp only [createOrUpdateDNSRecord, h, hnd, Bool.not_true, Bool.false_eq_true,
          if_false]
        exact ⟨_, rfl, rfl, rfl⟩
  · intro E resolve getRecord serviceName ls h
    induction ls with
    | nil => rfl
    | cons l rest ih =>
      obtain ⟨opts, hstep, hnone⟩ := h l (List.mem_cons_self l rest)
      have ihr := ih (fun x hx => h x (List.mem_cons_of_mem l hx))
      simp only [processLabels, hstep, ihr, hnone, Option.toList_none,
        List.nil_append]

/-- Witness for C1: a matching observed record produces no task, at a
concrete input. -/
theorem reconciler_diff_create_update_noop_witness :
    createOrUpdateDNSRecord
      (fun _ _ => some { id := some "record123", type := "A",
                         name := "test.domain.com", content := "1.2.3.4",
                         ttl := some 1, proxied := some true })
      { serviceName := "test-service", recordType := some "A",
        name := "test.domain.com", content := some "1.2.3.4",
        ttl := some 1, proxied := some true } = none :=
  ((reconciler_diff_create_update_noop.1
      (fun _ _ => some { id := some "record123", type := "A",
                         name := "test.domain.com", content := "1.2.3.4",
                         ttl := some 1, proxied := some true })
      { serviceName := "test-service", recordType := some "A",
        name := "test.domain.com", content := some "1.2.3.4",
        ttl := some 1, proxied := some true }).2 _ rfl).1 ⟨rfl, rfl, rfl⟩

/-! ## Claim C3 -/

/-- Claim C3: during one entity-event reconciliation, a failed resolution
for a sentinel AAAA record skips only that record (the rest of the entity
is still processed), while a failed resolution for family A fails the
whole call; concretely, the spec scenario (A and AAAA records, both
sentinel, IPv4 up, IPv6 down) yields exactly one CREATE task of type A. -/
theorem entity_update_family_error_handling :
    (∀ (E : Type) (resolve : String → Except E String) getRecord serviceName
       (label : DNSLabel) (rest : List DNSLabel) (e : E),
      label.type = some "AAAA" →
      contentSentinel label.content = true →
      resolve "AAAA" = Except.error e →
      processLabels resolve getRecord serviceName (label :: rest) =
        processLabels resolve getRecord serviceName rest) ∧
    (∀ (E : Type) (resolve : String → Except E String) getRecord serviceName
       (label : DNSLabel) (rest : List DNSLabel) (e : E),
      (label.type = none ∨ label.type = some "A") →
      contentSentinel label.content = true →
      resolve "A" = Except.error e →
      processLabels resolve getRecord serviceName (label :: rest) =
        Except.error e) ∧
    handleServiceUpdate cfgEx "test-service" scenarioLabels resolveScen
        (fun _ _ => none) =
      Except.ok [{ type := TaskType.CREATE, status := TaskStatus.PENDING,
                   attempts := 0, maxAttempts := 3,
                   data := { serviceName := "test-service", recordType := "A",
                             name := "api.domain.com", content := "1.2.3.4",
                             ttl := some 1, proxied := some true,
                             recordId := none } }] := by
  refine ⟨?_, ?_, ?_⟩
  · intro E resolve getRecord serviceName label rest e hty hsent hres
    simp only [processLabels, stepLabel, mkDnsOptions, hsent, hty, hres,
      Option.getD_some, if_pos, beq_self_eq_true, if_true]
  · intro E resolve getRecord serviceName label rest e hty hsent hres
    rcases hty with hty | hty <;>
      simp only [processLabels, stepLabel, mkDnsOptions, hsent, hty,
        Option.getD_some, Option.getD_none, hres, if_pos] <;> rfl
  · rfl

/-- Witness for C3: the AAAA-skip equation at a concrete input. -/
theorem entity_update_family_error_handling_witness :
    processLabels resolveScen (fun _ _ => none) "svc"
        [{ hostname := some "h.x", type := some "AAAA", content := none,
           ttl := none, proxied := none }] =
      processLabels resolveScen (fun _ _ => none) "svc" [] :=
  entity_update_family_error_handling.1 String resolveScen (fun _ _ => none)
    "svc"
    { hostname := some "h.x", type := some "AAAA", content := none,
      ttl := none, proxied := none } [] "no ipv6" rfl rfl rfl

/-! ## Claim C2 -/

/-- Two distinct groups declaring the same hostname (and implicit type A). -/
def dupLabels : List (String × String) :=
  [("dns.cloudflare.g1.hostname", "x.com"),
   ("dns.cloudflare.g2.hostname", "x.com")]

/-- Counterexample to claim C2: the parser output for `dupLabels` holds
two records with the same identity key (hostname `x.com`, type `A`);
nothing is dropped and first does not win over later duplicates. -/
theorem parser_duplicate_identity_keys_kept :
    (validateServiceLabels cfgEx dupLabels).map
        (fun l => (l.hostname, l.type)) =
      [(some "x.com", some "A"), (some "x.com", some "A")] ∧
    ¬ ((validateServiceLabels cfgEx dupLabels).map
        (fun l => (l.hostname, l.type))).Nodup := by
  constructor
  · rfl
  · intro h
    rw [show (validateServiceLabels cfgEx dupLabels).map
        (fun l => (l.hostname, l.type)) =
      [(some "x.com", some "A"), (some "x.com", some "A")] from rfl] at h
    simp at h

/-- Claim C2 as amended: groups are keyed by group id, so one parse pass
yields at most one record per group (never more records than groups);
records with equal (hostname, type) arising from distinct groups are all
kept, with no identity-key deduplication (shown by the counterexample). -/
theorem parser_at_most_one_record_per_group :
    ∀ (cfg : AppConfig) (labels : List (String × String)),
      (extractDNSLabels cfg labels).length ≤
        (dnsGroups (preTraefikHostname cfg labels)).length := by
  intro cfg labels
  unfold extractDNSLabels
  refine le_trans (List.length_filterMap_le _ _) ?_
  rw [List.length_map]

/-- Witness for the amended C2 statement at a concrete input. -/
theorem parser_at_most_one_record_per_group_witness :
    (extractDNSLabels cfgEx dupLabels).length ≤
      (dnsGroups (preTraefikHostname cfgEx dupLabels)).length :=
  parser_at_most_one_record_per_group cfgEx dupLabels

/-! ## Claim C4 -/

/-- A TXT record declared without any content key. -/
def txtNoContentLabels : List (String × String) :=
  [("dns.cloudflare.hostname", "x.com"),
   ("dns.cloudflare.type", "TXT")]

/-- Claim C4 failing input: the parser keeps a TXT group with an absent
content key (only CNAME is rejected by `validateDNSLabel`), contradicting
the repository README ("For other types (CNAME, TXT, MX): Content is
required") and the spec. -/
theorem txt_without_content_not_dropped :
    validateServiceLabels cfgEx txtNoContentLabels =
      [{ hostname := some "x.com", type := some "TXT", content := none,
         ttl := none, proxied := none }] ∧
    validateServiceLabels cfgEx
        [("dns.cloudflare.hostname", "x.com"),
         ("dns.cloudflare.type", "CNAME")] = [] := ⟨rfl, rfl⟩

/-! ## Claim C6 -/

/-- Claim C6: when IPv4 resolution falls back to the two secondary
sources and they disagree, the attempt fails with the disagreement error
and neither answer is adopted (the cache is untouched and the call either
surfaces that error or falls back to the previously cached value); when
they agree, the agreed value is the resolved address and is cached. -/
theorem ipv4_fallback_consensus :
    ∀ (st : IPCache) (now : Int) (e ip1 ip2 : String),
      freshV4 st now = false →
      ((ip1 ≠ ip2 →
        attemptV4 (Except.error e) (Except.ok ip1) (Except.ok ip2) =
          Except.error IPFetchError.disagree ∧
        (getPublicIPv4 st now (Except.error e) (Except.ok ip1)
            (Except.ok ip2)).2 = st ∧
        (∀ c, st.currentIPv4 = some c → c ≠ "" →
          (getPublicIPv4 st now (Except.error e) (Except.ok ip1)
              (Except.ok ip2)).1 = Except.ok c) ∧
        ((st.currentIPv4 = none ∨ st.currentIPv4 = some "") →
          (getPublicIPv4 st now (Except.error e) (Except.ok ip1)
              (Except.ok ip2)).1 = Except.error IPFetchError.disagree)) ∧
      (ip1 = ip2 →
        getPublicIPv4 st now (Except.error e) (Except.ok ip1)
            (Except.ok ip2) =
          (Except.ok ip1,
           { st with currentIPv4 := some ip1, lastCheckIPv4 := now }))) := by
  intro st now e ip1 ip2 hfresh
  constructor
  · intro hne
    have hatt : attemptV4 (Except.error e) (Except.ok ip1) (Except.ok ip2) =
        Except.error IPFetchError.disagree := by
      simp [attemptV4, bne_iff_ne, hne]
    refine ⟨hatt, ?_, ?_, ?_⟩
    · simp only [getPublicIPv4, hfresh, Bool.false_eq_true, if_false, hatt]
      cases hc : st.currentIPv4 with
      | none => rfl
      | some c =>
        by_cases hce : c = "" <;> simp [hce]
    · intro c hc hcne
      simp [getPublicIPv4, hfresh, hatt, hc, hcne]
    · intro hc
      rcases hc with hc | hc <;> simp [getPublicIPv4, hfresh, hatt, hc]
  · intro heq
    subst heq
    simp [getPublicIPv4, hfresh, attemptV4]

/-- Witness for C6 at concrete inputs (empty cache, disagreeing sources). -/
theorem ipv4_fallback_consensus_witness :
    attemptV4 (Except.error "down") (Except.ok "1.2.3.4")
        (Except.ok "5.6.7.8") = Except.error IPFetchError.disagree :=
  (((ipv4_fallback_consensus ⟨none, none, 0, 0⟩ 0 "down" "1.2.3.4" "5.6.7.8"
      rfl).1 (by decide))).1

/-! ## Claim C7 -/

/-- Claim C7: for each address family, when resolution fails after all
fallbacks, a cached value (even stale, i.e. merely not fresh) is
returned and the failure propagates only when no usable cached value
exists; the cache state is unchanged by the failed attempt. -/
theorem stale_cache_fallback_on_failure :
    (∀ (st : IPCache) (now : Int) (p f1 f2 : Except String String)
       (err : IPFetchError),
      freshV4 st now = false →
      attemptV4 p f1 f2 = Except.error err →
      (∀ c, st.currentIPv4 = some c → c ≠ "" →
        getPublicIPv4 st now p f1 f2 = (Except.ok c, st)) ∧
      ((st.currentIPv4 = none ∨ st.currentIPv4 = some "") →
        getPublicIPv4 st now p f1 f2 = (Except.error err, st))) ∧
    (∀ (st : IPCache) (now : Int) (e : String),
      freshV6 st now = false →
      (∀ c, st.currentIPv6 = some c → c ≠ "" →
        getPublicIPv6 st now (Except.error e) = (Except.ok c, st)) ∧
      ((st.currentIPv6 = none ∨ st.currentIPv6 = some "") →
        getPublicIPv6 st now (Except.error e) =
          (Except.error (IPFetchError.upstream e), st))) := by
  constructor
  · intro st now p f1 f2 err hfresh hatt
    constructor
    · intro c hc hcne
      simp [getPublicIPv4, hfresh, hatt, hc, hcne]
    · intro hc
      rcases hc with hc | hc <;> simp [getPublicIPv4, hfresh, hatt, hc]
  · intro st now e hfresh
    constructor
    · intro c hc hcne
      simp [getPublicIPv6, hfresh, hc, hcne]
    · intro hc
      rcases hc with hc | hc <;> simp [getPublicIPv6, hfresh, hc]

/-- Witness for C7 at concrete inputs: a stale cached IPv4 is returned
when every source fails, and the untouched cache is returned with it. -/
theorem stale_cache_fallback_on_failure_witness :
    getPublicIPv4 ⟨some "9.9.9.9", none, 0, 0⟩ (CACHE_DURATION + 1)
        (Except.error "down") (Except.error "down") (Except.error "down") =
      (Except.ok "9.9.9.9", ⟨some "9.9.9.9", none, 0, 0⟩) :=
  ((stale_cache_fallback_on_failure.1 ⟨some "9.9.9.9", none, 0, 0⟩
      (CACHE_DURATION + 1) (Except.error "down") (Except.error "down")
      (Except.error "down") (IPFetchError.upstream "down") (by decide)
      rfl).1) "9.9.9.9" rfl (by decide)

/-! ## Claim C9 -/

/-- Helper: the worker does nothing on an empty queue. -/
theorem runQueue_empty (n : Nat) (provider : TaskData → Bool)
    (c f : List DNSTask) :
    runQueue n provider ⟨[], c, f⟩ = ⟨[], c, f⟩ := by
  induction n with
  | zero => rfl
  | succ n ih => simpa [runQueue, processOne] using ih

/-- Helper: splitting a run of the worker. -/
theorem runQueue_add (m n : Nat) (provider : TaskData → Bool)
    (st : QueueState) :
    runQueue (m + n) provider st =
      runQueue n provider (runQueue m provider st) := by
  induction m generalizing st with
  | zero => rw [Nat.zero_add]; rfl
  | succ m ih =>
    have hmn : m + 1 + n = (m + n) + 1 := by omega
    rw [hmn]
    show runQueue (m + n) provider (processOne provider st) = _
    rw [ih]
    rfl

/-- Claim C9: every task the reconciler builds has `maxAttempts = 3`
(starting PENDING with zero attempts); enqueue never surfaces a failure
to its caller; and a task whose provider call always fails is FAILED
after exactly 3 attempts (not before), is then out of the queue, and is
never processed again. -/
theorem task_retry_bound :
    (∀ getRecord options t,
      createOrUpdateDNSRecord getRecord options = some t →
      t.maxAttempts = 3 ∧ t.attempts = 0 ∧ t.status = TaskStatus.PENDING) ∧
    (∀ st t, (enqueueTask st t).2 = Except.ok ()) ∧
    (∀ (t : DNSTask) (provider : TaskData → Bool),
      t.attempts = 0 → t.maxAttempts = 3 →
      (∀ d, provider d = false) →
      (runQueue 2 provider (enqueueTask ⟨[], [], []⟩ t).1).failed = [] ∧
      runQueue 3 provider (enqueueTask ⟨[], [], []⟩ t).1 =
        ⟨[], [], [{ t with attempts := 3, status := TaskStatus.FAILED }]⟩ ∧
      (∀ k, runQueue (3 + k) provider (enqueueTask ⟨[], [], []⟩ t).1 =
        runQueue 3 provider (enqueueTask ⟨[], [], []⟩ t).1)) := by
  refine ⟨?_, ?_, ?_⟩
  · intro getRecord options t h
    simp only [createOrUpdateDNSRecord] at h
    split at h
    · split at h
      · exact Option.noConfusion h
      · injection h with h
        subst h
        exact ⟨rfl, rfl, rfl⟩
    · injection h with h
      subst h
      exact ⟨rfl, rfl, rfl⟩
  · intro st t
    rfl
  · intro t provider ha hm hp
    obtain ⟨ty, stt, att, ma, dat⟩ := t
    have ha2 : att = 0 := ha
    have hm2 : ma = 3 := hm
    subst ha2
    subst hm2
    refine ⟨?_, ?_, ?_⟩
    · simp [runQueue, processOne, enqueueTask, hp]
    · simp [runQueue, processOne, enqueueTask, hp]
    · intro k
      rw [runQueue_add]
      have h3 : runQueue 3 provider
          (enqueueTask ⟨[], [], []⟩ ⟨ty, stt, 0, 3, dat⟩).1 =
          ⟨[], [], [⟨ty, TaskStatus.FAILED, 3, 3, dat⟩]⟩ := by
        simp [runQueue, processOne, enqueueTask, hp]
      rw [h3, runQueue_empty]

/-- Witness for C9: a concrete always-failing task run. -/
theorem task_retry_bound_witness :
    runQueue 3 (fun _ => false)
        (enqueueTask ⟨[], [], []⟩
          { type := TaskType.CREATE, status := TaskStatus.PENDING,
            attempts := 0, maxAttempts := 3,
            data := { serviceName := "svc", recordType := "A",
                      name := "h.x", content := "1.2.3.4",
                      ttl := some 1, proxied := some true,
                      recordId := none } }).1 =
      ⟨[], [],
       [{ type := TaskType.CREATE, status := TaskStatus.FAILED,
          attempts := 3, maxAttempts := 3,
          data := { serviceName := "svc", recordType := "A",
                    name := "h.x", content := "1.2.3.4",
                    ttl := some 1, proxied := some true,
                    recordId := none } }]⟩ :=
  (task_retry_bound.2.2
    { type := TaskType.CREATE, status := TaskStatus.PENDING,
      attempts := 0, maxAttempts := 3,
      data := { serviceName := "svc", recordType := "A",
                name := "h.x", content := "1.2.3.4",
                ttl := some 1, proxied := some true,
                recordId := none } }
    (fun _ => false) rfl rfl (fun _ => rfl)).2.1

/-! ## Claim C5 -/

/-- Claim C5: for a parsed group whose proxied key is not set, the
validated record has proxied `true` for type A, proxied `false` for type
AAAA, and no proxied field at all (absence, not `false`) for TXT and MX,
which in the explicit-labels path never receive defaults. -/
theorem proxied_default_policy :
    ∀ (cfg : AppConfig) (g : List (String × String)) (r : DNSLabel),
      lookupKV g "proxied" = none →
      validateDNSLabel cfg (mkGroupLabel g)
          (includeDefaultsFor (mkGroupLabel g)) = some r →
      (r.type = some "A" → r.proxied = some true) ∧
      (r.type = some "AAAA" → r.proxied = some false) ∧
      ((r.type = some "TXT" ∨ r.type = some "MX") → r.proxied = none) := by
  intro cfg g r hp hv
  have hpx : (mkGroupLabel g).proxied = none := by
    simp [mkGroupLabel, hp]
  simp only [validateDNSLabel, hpx] at hv
  split at hv
  · exact Option.noConfusion hv
  · split at hv
    · exact Option.noConfusion hv
    · split at hv
      · exact Option.noConfusion hv
      · injection hv with hv
        subst hv
        refine ⟨?_, ?_, ?_⟩
        · intro hA
          injection hA with hA
          simp [hA]
        · intro hA
          injection hA with hA
          simp [hA]
        · intro hTM
          have hty : validateRecordType (mkGroupLabel g).type = "TXT" ∨
              validateRecordType (mkGroupLabel g).type = "MX" := by
            rcases hTM with h | h <;> [left; right] <;>
              exact Option.some.inj h
          have h1 : (mkGroupLabel g).type ≠ some "A" := by
            intro h
            rw [h] at hty
            rcases hty with h2 | h2 <;> exact absurd h2 (by decide)
          have h2 : (mkGroupLabel g).type ≠ none := by
            intro h
            rw [h] at hty
            rcases hty with h2 | h2 <;> exact absurd h2 (by decide)
          have h3 : (mkGroupLabel g).type ≠ some "AAAA" := by
            intro h
            rw [h] at hty
            rcases hty with h2 | h2 <;> exact absurd h2 (by decide)
          have h4 : (mkGroupLabel g).type ≠ some "CNAME" := by
            intro h
            rw [h] at hty
            rcases hty with h2 | h2 <;> exact absurd h2 (by decide)
          have hinc : includeDefaultsFor (mkGroupLabel g) = false := by
            simp only [includeDefaultsFor, Bool.or_eq_false_iff]
            refine ⟨⟨⟨?_, ?_⟩, ?_⟩, ?_⟩ <;>
              simp only [beq_eq_false_iff_ne, ne_eq] <;> assumption
          rcases hty with h | h <;> simp [h, hinc]

/-- Witness for C5: a TXT group without a proxied key yields a record
with the proxied field absent. -/
theorem proxied_default_policy_witness :
    ({ hostname := some "x.com", type := some "TXT", content := none,
       ttl := none, proxied := none } : DNSLabel).proxied = none :=
  (proxied_default_policy cfgEx [("hostname", "x.com"), ("type", "TXT")]
      { hostname := some "x.com", type := some "TXT", content := none,
        ttl := none, proxied := none } rfl rfl).2.2 (Or.inl rfl)

/-! ## Claim C10 -/

/-- Helper: a validated label carries a positive ttl or none (given a
positive configured default). -/
theorem validateDNSLabel_ttl_pos (cfg : AppConfig) (label : DNSLabel)
    (inc : Bool) (r : DNSLabel) (hcfg : 0 < cfg.defaults.ttl)
    (hv : validateDNSLabel cfg label inc = some r) :
    ∀ v, r.ttl = some v → 0 < v := by
  simp only [validateDNSLabel] at hv
  split at hv
  · exact Option.noConfusion hv
  · split at hv
    · exact Option.noConfusion hv
    · split at hv
      · exact Option.noConfusion hv
      · injection hv with hv
        subst hv
        intro v hvv
        simp only at hvv
        rcases hl : label.ttl with _ | t <;> rw [hl] at hvv <;>
          dsimp only at hvv
        · by_cases hi : inc = true
          · rw [if_pos hi] at hvv
            injection hvv with hvv
            omega
          · rw [if_neg hi] at hvv
            exact Option.noConfusion hvv
        · by_cases ht : (0 : Int) < t
          · rw [if_pos ht] at hvv
            injection hvv with hvv
            omega
          · rw [if_neg ht] at hvv
            by_cases hi : inc = true
            · rw [if_pos hi] at hvv
              injection hvv with hvv
              omega
            · rw [if_neg hi] at hvv
              exact Option.noConfusion hvv

/-- Helper: every record produced by the Traefik host loop is a
`validateDNSLabel` result (with defaults included). -/
theorem traefikHostLoop_member (cfg : AppConfig)
    (labels : List (String × String)) :
    ∀ (hs processed : List String) (l : DNSLabel),
      l ∈ (traefikHostLoop cfg labels hs processed).1 →
      ∃ lab, validateDNSLabel cfg lab true = some l := by
  intro hs
  induction hs with
  | nil => intro processed l h; exact absurd h (List.not_mem_nil l)
  | cons h0 rest ih =>
    intro processed l hmem
    simp only [traefikHostLoop] at hmem
    by_cases hc : processed.contains h0
    · rw [if_pos hc] at hmem
      exact ih processed l hmem
    · rw [if_neg hc] at hmem
      simp only [List.mem_append] at hmem
      rcases hmem with hmem | hmem
      · rcases hval : validateDNSLabel cfg (buildTraefikLabel cfg labels h0) true
          with _ | r <;> rw [hval] at hmem
        · exact absurd hmem (List.not_mem_nil l)
        · simp only [Option.toList_some, List.mem_singleton] at hmem
          subst hmem
          exact ⟨buildTraefikLabel cfg labels h0, hval⟩
      · exact ih (processed ++ [h0]) l hmem

/-- Helper: every record produced by the Traefik rule loop is a
`validateDNSLabel` result. -/
theorem traefikRuleLoop_member (cfg : AppConfig)
    (labels : List (String × String)) :
    ∀ (rules processed : List String) (l : DNSLabel),
      l ∈ traefikRuleLoop cfg labels rules processed →
      ∃ lab, validateDNSLabel cfg lab true = some l := by
  intro rules
  induction rules with
  | nil => intro processed l h; exact absurd h (List.not_mem_nil l)
  | cons rule rest ih =>
    intro processed l hmem
    simp only [traefikRuleLoop, List.mem_append] at hmem
    rcases hmem with hmem | hmem
    · exact traefikHostLoop_member cfg labels (allHostMatches rule) processed l hmem
    · exact ih _ l hmem

/-- Helper: every record returned by the parser entry point is a
`validateDNSLabel` result. -/
theorem validateServiceLabels_member (cfg : AppConfig)
    (labels : List (String × String)) (l : DNSLabel)
    (hmem : l ∈ validateServiceLabels cfg labels) :
    ∃ lab inc, validateDNSLabel cfg lab inc = some l := by
  have hdns : ∀ m, l ∈ extractDNSLabels cfg m →
      ∃ lab inc, validateDNSLabel cfg lab inc = some l := by
    intro m hm
    unfold extractDNSLabels at hm
    obtain ⟨p, _, hp⟩ := List.mem_filterMap.mp hm
    exact ⟨mkGroupLabel p.2, includeDefaultsFor (mkGroupLabel p.2), hp⟩
  unfold validateServiceLabels at hmem
  split at hmem
  · by_cases he : (extractTraefikLabels cfg labels).isEmpty
    · rw [if_neg (by simp [he])] at hmem
      exact hdns labels hmem
    · rw [if_pos (by simp [List.isEmpty_iff] at he ⊢; exact he)] at hmem
      unfold extractTraefikLabels at hmem
      split at hmem
      · exact absurd hmem (List.not_mem_nil l)
      · obtain ⟨lab, hv⟩ := traefikRuleLoop_member cfg labels _ [] l hmem
        exact ⟨lab, true, hv⟩
  · exact hdns labels hmem

/-- Helper: the content-resolution step changes only the content field. -/
theorem stepLabel_preserves {E : Type} (resolve : String → Except E String)
    (serviceName : String) (label : DNSLabel) (opts : DNSUpdateOptions)
    (h : stepLabel resolve serviceName label = Except.ok (some opts)) :
    opts.ttl = label.ttl ∧ opts.proxied = label.proxied := by
  simp only [stepLabel] at h
  split at h
  · rcases hr : resolve ((mkDnsOptions serviceName label).recordType.getD "A")
      with e | ip <;> rw [hr] at h <;> dsimp only at h
    · split at h
      · injection h with h
        exact Option.noConfusion h
      · exact Except.noConfusion h
    · injection h with h
      injection h with h
      subst h
      exact ⟨rfl, rfl⟩
  · injection h with h
    injection h with h
    subst h
    exact ⟨rfl, rfl⟩

/-- Helper: every task returned by the reconciliation loop originates in
`createOrUpdateDNSRecord` applied to options derived from one of the
labels (sharing its ttl and proxied fields). -/
theorem processLabels_member {E : Type} (resolve : String → Except E String)
    (getRecord : String → String → Option DNSRecord) (serviceName : String) :
    ∀ (ls : List DNSLabel) (tasks : List DNSTask),
      processLabels resolve getRecord serviceName ls = Except.ok tasks →
      ∀ t ∈ tasks, ∃ l ∈ ls, ∃ opts,
        createOrUpdateDNSRecord getRecord opts = some t ∧
        opts.ttl = l.ttl ∧ opts.proxied = l.proxied := by
  intro ls
  induction ls with
  | nil =>
    intro tasks h t ht
    simp only [processLabels] at h
    injection h with h
    subst h
    exact absurd ht (List.not_mem_nil t)
  | cons label rest ih =>
    intro tasks h t ht
    simp only [processLabels] at h
    rcases hstep : stepLabel resolve serviceName label with e | o <;>
      rw [hstep] at h
    · exact Except.noConfusion h
    · rcases o with _ | opts
      · obtain ⟨l, hl, w⟩ := ih tasks h t ht
        exact ⟨l, List.mem_cons_of_mem label hl, w⟩
      · rcases hrest : processLabels resolve getRecord serviceName rest
          with e | rts <;> rw [hrest] at h
        · exact Except.noConfusion h
        · injection h with h
          subst h
          rcases List.mem_append.mp ht with hth | hth
          · rcases hco : createOrUpdateDNSRecord getRecord opts
              with _ | t2 <;> rw [hco] at hth
            · exact absurd hth (List.not_mem_nil t)
            · simp only [Option.toList_some, List.mem_singleton] at hth
              subst hth
              obtain ⟨h1, h2⟩ := stepLabel_preserves resolve serviceName label opts hstep
              exact ⟨label, List.mem_cons_self label rest, opts, hco, h1, h2⟩
          · obtain ⟨l, hl, w⟩ := ih rts hrest t hth
            exact ⟨l, List.mem_cons_of_mem label hl, w⟩

/-- Claim C10 (implicit): every task built by the reconciler carries a
concrete proxied boolean (absent proxied is coerced to `true`, even for
TXT/MX) and a concrete ttl with absent-or-zero ttl coerced to `1`; and,
through the whole pipeline with a positive configured default ttl, every
enqueued task carries a positive ttl. -/
theorem task_build_coercions :
    (∀ getRecord options t,
      createOrUpdateDNSRecord getRecord options = some t →
      t.data.proxied = some (proxiedOrTrue options.proxied) ∧
      t.data.ttl = some (ttlOrOne options.ttl) ∧
      (options.proxied = none → t.data.proxied = some true) ∧
      ((options.ttl = none ∨ options.ttl = some 0) → t.data.ttl = some 1)) ∧
    (∀ (E : Type) (cfg : AppConfig) serviceName labels
       (resolve : String → Except E String) getRecord tasks,
      0 < cfg.defaults.ttl →
      handleServiceUpdate cfg serviceName labels resolve getRecord =
        Except.ok tasks →
      ∀ t ∈ tasks, (∃ b, t.data.proxied = some b) ∧
        ∃ v, t.data.ttl = some v ∧ 0 < v) := by
  have base : ∀ getRecord options t,
      createOrUpdateDNSRecord getRecord options = some t →
      t.data.proxied = some (proxiedOrTrue options.proxied) ∧
      t.data.ttl = some (ttlOrOne options.ttl) := by
    intro getRecord options t h
    simp only [createOrUpdateDNSRecord] at h
    split at h
    · split at h
      · exact Option.noConfusion h
      · injection h with h
        subst h
        exact ⟨rfl, rfl⟩
    · injection h with h
      subst h
      exact ⟨rfl, rfl⟩
  constructor
  · intro getRecord options t h
    obtain ⟨h1, h2⟩ := base getRecord options t h
    refine ⟨h1, h2, ?_, ?_⟩
    · intro hpn
      rw [h1, hpn]
      rfl
    · intro htn
      rcases htn with htn | htn <;> rw [h2, htn] <;> simp [ttlOrOne]
  · intro E cfg serviceName labels resolve getRecord tasks hcfg h t ht
    obtain ⟨l, hl, opts, hco, httl, _⟩ :=
      processLabels_member resolve getRecord serviceName
        (validateServiceLabels cfg labels) tasks h t ht
    obtain ⟨h1, h2⟩ := base getRecord opts t hco
    refine ⟨⟨proxiedOrTrue opts.proxied, h1⟩, ttlOrOne opts.ttl, h2, ?_⟩
    obtain ⟨lab, inc, hv⟩ := validateServiceLabels_member cfg labels l hl
    have hpos := validateDNSLabel_ttl_pos cfg lab inc l hcfg hv
    rw [httl]
    rcases hlt : l.ttl with _ | v
    · simp [ttlOrOne]
    · have hvpos := hpos v hlt
      simp only [ttlOrOne]
      rw [if_neg (by omega)]
      exact hvpos

/-- Witness for C10: a concrete task built from options with absent
proxied and absent ttl carries proxied `true` and ttl `1`. -/
theorem task_build_coercions_witness :
    ∃ t, createOrUpdateDNSRecord (fun _ _ => none)
        { serviceName := "svc", recordType := some "TXT", name := "h.x",
          content := some "v=spf1", ttl := none, proxied := none } = some t ∧
      t.data.proxied = some true ∧ t.data.ttl = some 1 := by
  refine ⟨_, rfl, ?_, ?_⟩
  · exact (task_build_coercions.1 (fun _ _ => none)
      { serviceName := "svc", recordType := some "TXT", name := "h.x",
        content := some "v=spf1", ttl := none, proxied := none } _ rfl).2.2.1 rfl
  · exact (task_build_coercions.1 (fun _ _ => none)
      { serviceName := "svc", recordType := some "TXT", name := "h.x",
        content := some "v=spf1", ttl := none, proxied := none } _ rfl).2.2.2
      (Or.inl rfl)

/-! ## Claim C8 -/

/-- The claim metadata: routable flag on, one router rule with two
OR-joined Host clauses, no explicit hostname key. -/
def traefikClaimLabels : List (String × String) :=
  [("traefik.enable", "true"),
   ("traefik.http.routers.web.rule", "Host(`a.x.com`) || Host(`b.x.com`)")]

/-- Claim C8: with routing-rule inference enabled and provider defaults
(record type A with a positive default ttl), the metadata
`traefik.enable=true` plus the rule
`Host(` backtick `a.x.com` backtick `) || Host(` backtick `b.x.com`
backtick `)` and no explicit hostname key parses into exactly two desired
records, hostnames `a.x.com` and `b.x.com`, each carrying the
provider-default type, proxied and ttl (no override keys are present in
this metadata). -/
theorem traefik_rule_inference :
    ∀ (cfg : AppConfig),
      cfg.useTraefikLabels = true →
      cfg.defaults.recordType = "A" →
      0 < cfg.defaults.ttl →
      validateServiceLabels cfg traefikClaimLabels =
        [{ hostname := some "a.x.com", type := some "A", content := none,
           ttl := some cfg.defaults.ttl, proxied := some cfg.defaults.proxied },
         { hostname := some "b.x.com", type := some "A", content := none,
           ttl := some cfg.defaults.ttl, proxied := some cfg.defaults.proxied }] := by
  intro cfg h1 h2 h3
  obtain ⟨u, rt, px, tt⟩ := cfg
  have hu : u = true := h1
  have hrt : rt = "A" := h2
  have htt : (0 : Int) < tt := h3
  subst hu
  subst hrt
  have e1 : validateDNSLabel ⟨true, ⟨"A", px, tt⟩⟩
      ⟨some "a.x.com", some "A", none, some tt, some px⟩ true =
      some ⟨some "a.x.com", some "A", none, some tt, some px⟩ := by
    simp [validateDNSLabel, strFalsy, validateRecordType, strToUpper,
      VALID_RECORD_TYPES, htt]
  have e2 : validateDNSLabel ⟨true, ⟨"A", px, tt⟩⟩
      ⟨some "b.x.com", some "A", none, some tt, some px⟩ true =
      some ⟨some "b.x.com", some "A", none, some tt, some px⟩ := by
    simp [validateDNSLabel, strFalsy, validateRecordType, strToUpper,
      VALID_RECORD_TYPES, htt]
  have key : extractTraefikLabels ⟨true, ⟨"A", px, tt⟩⟩ traefikClaimLabels =
      (validateDNSLabel ⟨true, ⟨"A", px, tt⟩⟩
        ⟨some "a.x.com", some "A", none, some tt, some px⟩ true).toList ++
      ((validateDNSLabel ⟨true, ⟨"A", px, tt⟩⟩
        ⟨some "b.x.com", some "A", none, some tt, some px⟩ true).toList ++ []) := rfl
  rw [e1, e2] at key
  simp only [Option.toList_some, List.append_nil, List.singleton_append] at key
  calc validateServiceLabels ⟨true, ⟨"A", px, tt⟩⟩ traefikClaimLabels
      = if !(extractTraefikLabels ⟨true, ⟨"A", px, tt⟩⟩
              traefikClaimLabels).isEmpty
          then extractTraefikLabels ⟨true, ⟨"A", px, tt⟩⟩ traefikClaimLabels
          else extractDNSLabels ⟨true, ⟨"A", px, tt⟩⟩ traefikClaimLabels := rfl
    _ = [⟨some "a.x.com", some "A", none, some tt, some px⟩,
         ⟨some "b.x.com", some "A", none, some tt, some px⟩] := by
        rw [key]
        rfl

/-- Witness for C8 at the test configuration. -/
theorem traefik_rule_inference_witness :
    validateServiceLabels
        { useTraefikLabels := true,
          defaults := { recordType := "A", proxied := true, ttl := 1 } }
        traefikClaimLabels =
      [{ hostname := some "a.x.com", type := some "A", content := none,
         ttl := some 1, proxied := some true },
       { hostname := some "b.x.com", type := some "A", content := none,
         ttl := some 1, proxied := some true }] :=
  traefik_rule_inference
    { useTraefikLabels := true,
      defaults := { recordType := "A", proxied := true, ttl := 1 } }
    rfl rfl (by decide)
